import Mathlib

/-!
Shallow embedding of the reconciliation core of opnsense-dyndns-hetzner:
rate limiter, retry wrapper, Hetzner DNS sync, DNS verification, OPNsense
interface-IP extraction, and the per-cycle reconciler, together with
theorems settling the specification claims about them.
-/

/- String and IP constants used by concrete instances below. -/

def ipHome : String := "1.2.3.4"

def ipAlt : String := "2.2.2.2"

def ipDirect : String := "3.3.3.3"

def ipNS : String := "193.47.99.3"

def hostHome : String := "home"

def hostOffice : String := "office"

def zoneExample : String := "example.org"

def wanName : String := "wan"

def igbName : String := "igb0"

def emptyStr : String := ""

/-- Mirror of Python sorted on string lists (ratelimit-free helper used by
sync and the reconciler; ordering itself is irrelevant to set equality). -/
def pySorted (l : List String) : List String :=
  l.insertionSort (fun a b => a ≤ b)

/-! ## ratelimit.py -/

/-- State of ratelimit.RateLimiter: the configured minimum interval between
requests and the monotonic time of the last request. -/
structure RateLimiter where
  min_interval : ℚ
  last_request : ℚ
deriving DecidableEq, Repr

/-- RateLimiter.__init__: min_interval = 60 / requests_per_minute and
last_request = monotonic() - min_interval, so the first request never waits. -/
def RateLimiter.mkAt (requests_per_minute : ℚ) (now : ℚ) : RateLimiter :=
  ⟨60 / requests_per_minute, now - 60 / requests_per_minute⟩

/-- RateLimiter.wait at monotonic time now: sleeps min_interval - elapsed when
elapsed < min_interval (returning the slept duration), else performs no sleep;
last_request is then set to the post-sleep monotonic time. -/
def RateLimiter.wait (rl : RateLimiter) (now : ℚ) : Option ℚ × RateLimiter :=
  let elapsed := now - rl.last_request
  if elapsed < rl.min_interval then
    (some (rl.min_interval - elapsed), ⟨rl.min_interval, now + (rl.min_interval - elapsed)⟩)
  else
    (none, ⟨rl.min_interval, now⟩)

/-- n sequential wait() calls with no time passing between calls (the clock
advances only by the sleeps themselves); returns the list of performed sleeps. -/
def waitSeq (rl : RateLimiter) (now : ℚ) : Nat → List ℚ
  | 0 => []
  | Nat.succ n =>
    match rl.wait now with
    | (some s, rl2) => s :: waitSeq rl2 (now + s) n
    | (none, rl2) => waitSeq rl2 now n

/-! ## retry.py -/

/-- Loop body of retry.retry_with_backoff, with the attempt outcomes given as
a function from attempt index to result and should_retry as predicate; fuel is
the number of retries still allowed. Returns the final outcome together with
the number of invocations of the wrapped operation. Sleeping (backoff with
jitter) does not affect the outcome and is not modelled. -/
def retryGo {E T : Type} (op : Nat → Except E T) (sr : E → Bool) :
    Nat → Nat → Except E T × Nat
  | fuel, attempt =>
    match op attempt with
    | Except.ok t => (Except.ok t, 1)
    | Except.error e =>
      if sr e then
        match fuel with
        | 0 => (Except.error e, 1)
        | Nat.succ n =>
          let r := retryGo op sr n (attempt + 1)
          (r.1, r.2 + 1)
      else
        (Except.error e, 1)

/-- retry.retry_with_backoff: attempts 0 .. max_retries; a failure judged
non-retryable by should_retry is raised immediately; otherwise the operation
is retried until max_retries is exhausted and the last failure raised. -/
def retry_with_backoff {E T : Type} (max_retries : Nat) (op : Nat → Except E T)
    (sr : E → Bool) : Except E T × Nat :=
  retryGo op sr max_retries 0

/-! ## hetzner.py -/

/-- hcloud ZoneRecord: one value of an RRSet. -/
structure ZoneRecord where
  value : String
deriving DecidableEq, Repr

/-- hcloud BoundZoneRRSet, reduced to the record list that sync reads. -/
structure BoundZoneRRSet where
  records : List ZoneRecord
deriving DecidableEq, Repr

/-- A mutating RRSet call issued by sync_a_records. -/
inductive MutCall where
  | create (hostname : String) (ttl : Nat) (values : List String)
  | replace (values : List String)
  | delete
deriving DecidableEq, Repr

def MutCall.isCreate : MutCall → Bool
  | MutCall.create _ _ _ => true
  | _ => false

def MutCall.isReplace : MutCall → Bool
  | MutCall.replace _ => true
  | _ => false

def MutCall.isDelete : MutCall → Bool
  | MutCall.delete => true
  | _ => false

/-- current_ips in sync_a_records: the value set of the fetched RRSet when it
exists and has records, otherwise the empty set. -/
def currentIps (rrset : Option BoundZoneRRSet) : Finset String :=
  match rrset with
  | some r => if r.records.isEmpty then ∅ else (r.records.map ZoneRecord.value).toFinset
  | none => ∅

/-- HetznerDNSClient.sync_a_records, as a function of the fetched RRSet state:
returns the changed flag and the list of mutating RRSet calls issued. -/
def sync_a_records (ttl : Nat) (hostname : String) (rrset : Option BoundZoneRRSet)
    (desired_ips : List String) (dry_run : Bool) : Bool × List MutCall :=
  let current_ips := currentIps rrset
  let desired_set := desired_ips.toFinset
  if current_ips = desired_set then
    (false, [])
  else if dry_run then
    (true, [])
  else if desired_ips = [] then
    match rrset with
    | some _ => (true, [MutCall.delete])
    | none => (true, [])
  else
    match rrset with
    | some _ => (true, [MutCall.replace (pySorted desired_ips)])
    | none => (true, [MutCall.create hostname ttl (pySorted desired_ips)])

/-- A Hetzner zone, reduced to its id. -/
structure BoundZone where
  id : Nat
deriving DecidableEq, Repr

/-- Outcome of the provider call zones.get_all(name=zone): either an
APIException with a status code, or the list of matching zones. -/
inductive GetAllOutcome where
  | apiError (code : Nat)
  | zones (zs : List BoundZone)
deriving DecidableEq, Repr

/-- Errors raised by _get_zone: HetznerAPIError wrapping an APIException, or
the ValueError raised when no zone matches the configured name. -/
inductive ZoneError where
  | api (code : Nat)
  | notFound
deriving DecidableEq, Repr

/-- HetznerDNSClient._get_zone as a function of the zone cache and the
provider outcome: result, updated cache, and number of get_all calls made. -/
def get_zone (cache : Option BoundZone) (outcome : GetAllOutcome) :
    (Except ZoneError BoundZone × Option BoundZone) × Nat :=
  match cache with
  | some z => ((Except.ok z, some z), 0)
  | none =>
    match outcome with
    | GetAllOutcome.apiError c => ((Except.error (ZoneError.api c), none), 1)
    | GetAllOutcome.zones [] => ((Except.error ZoneError.notFound, none), 1)
    | GetAllOutcome.zones (z :: _) => ((Except.ok z, some z), 1)

/-- HetznerDNSClient.health_check: calls _get_zone once, returns true on
success and false on any exception; also reports the get_all call count. -/
def health_check (cache : Option BoundZone) (outcome : GetAllOutcome) : Bool × Nat :=
  match get_zone cache outcome with
  | ((Except.ok _, _), n) => (true, n)
  | ((Except.error _, _), n) => (false, n)

/-! ## verify.py -/

/-- Outcome of resolver.resolve(fqdn, A) against the Hetzner nameservers. -/
inductive DNSAnswer where
  | answer (ips : List String)
  | nxdomain
  | noAnswer
  | otherError
deriving DecidableEq, Repr

def HETZNER_NAMESERVERS : List String :=
  ["helium.ns.hetzner.de", "hydrogen.ns.hetzner.com", "oxygen.ns.hetzner.com"]

/-- verify.resolve_nameserver_ips with the system resolver modelled as a
function from NS hostname to an optional address list (none = exception,
skipped silently). -/
def resolve_nameserver_ips (res : String → Option (List String)) : List String :=
  HETZNER_NAMESERVERS.foldl
    (fun acc ns =>
      match res ns with
      | some addrs => acc ++ addrs
      | none => acc)
    []

/-- The queried name in verify_a_records: hostname . zone with trailing dots
stripped. -/
def fqdnOf (hostname zone : String) : String :=
  (hostname ++ "." ++ zone).dropRightWhile (fun c => c = '.')

/-- verify.verify_a_records with the authoritative query modelled as a
function from fqdn to DNSAnswer. -/
def verify_a_records (res : String → Option (List String)) (query : String → DNSAnswer)
    (hostname zone : String) (expected_ips : Finset String) : Bool :=
  let fqdn := fqdnOf hostname zone
  let ns_ips := resolve_nameserver_ips res
  if ns_ips = [] then
    false
  else
    match query fqdn with
    | DNSAnswer.answer ips => if ips.toFinset = expected_ips then true else false
    | DNSAnswer.nxdomain => if expected_ips = ∅ then true else false
    | DNSAnswer.noAnswer => if expected_ips = ∅ then true else false
    | DNSAnswer.otherError => false

/-! ## opnsense.py -/

/-- One entry of the response list under the ipv4 key; ipaddr is none when the
entry has no ipaddr key. -/
structure AddrInfo where
  ipaddr : Option String
deriving DecidableEq, Repr

/-- The per-interface object of the router response: an optional ipv4 list and
an optional direct ipaddr field. -/
structure IfaceInfo where
  ipv4 : Option (List AddrInfo)
  ipaddr : Option String
deriving DecidableEq, Repr

/-- The ipv4_addr computation of OPNsenseClient.get_interface_ips: scan the
ipv4 list for the first entry carrying an ipaddr key and take its value;
fall back to the direct ipaddr field when that produced none. -/
def extract_ipv4 (info : IfaceInfo) : Option String :=
  let fromList : Option String :=
    match info.ipv4 with
    | some entries => (entries.find? (fun a => a.ipaddr.isSome)).bind AddrInfo.ipaddr
    | none => none
  match fromList with
  | some v => some v
  | none => info.ipaddr

/-- Warnings emitted by get_interface_ips. -/
inductive IfWarning where
  | notFound (logical : String)
  | noIPv4 (logical : String)
deriving DecidableEq, Repr

/-- OPNsenseClient.get_interface_ips: interfaces is the configured mapping of
logical name to provider interface name and data the decoded router response;
returns the result mapping and the emitted warnings. A falsy (empty) address
is rejected like a missing one. -/
def get_interface_ips (interfaces : List (String × String))
    (data : String → Option IfaceInfo) : List (String × String) × List IfWarning :=
  match interfaces with
  | [] => ([], [])
  | (logical, opn) :: rest =>
    let r := get_interface_ips rest data
    match data opn with
    | none => (r.1, IfWarning.notFound logical :: r.2)
    | some info =>
      match extract_ipv4 info with
      | some v =>
        if v = "" then (r.1, IfWarning.noIPv4 logical :: r.2)
        else ((logical, v) :: r.1, r.2)
      | none => (r.1, IfWarning.noIPv4 logical :: r.2)

/-! ## main.py (run_update) -/

/-- One configured DNS record: hostname and the logical interface names whose
addresses it aggregates. -/
structure RecordSpec where
  hostname : String
  interfaces : List String
deriving DecidableEq, Repr

/-- Observable events of one run_update cycle: the log lines the claims refer
to, and every sync / verification / annotation call issued. -/
inductive Event where
  | fetchFailLog
  | noIPsWarnLog
  | syncCall (hostname : String) (ips : List String)
  | syncFailLog (hostname : String)
  | verifyCall (hostname : String) (zone : String) (ips : List String)
  | annotCall (ips : List String)
  | annotFailLog (hostname : String)
deriving DecidableEq, Repr

/-- desired_ips computed per record in run_update: addresses of the record's
interfaces present in the fetched mapping, deduplicated and sorted. -/
def desiredIpsFor (interface_ips : List (String × String)) (record : RecordSpec) :
    List String :=
  pySorted (record.interfaces.filterMap (fun i => interface_ips.lookup i)).eraseDups

/-- The per-record body of run_update's loop, inside the per-record
try/except: every exception of the sync call is caught (logged) there, and an
exception of the annotation updater is caught by its inner try/except. -/
def processRecord (zone : String) (interface_ips : List (String × String))
    (syncRes : String → List String → Except Unit Bool)
    (annotRes : List String → Except Unit Bool)
    (k8sEnabled : Bool) (triggerHostname : String) (dry_run : Bool)
    (record : RecordSpec) : List Event :=
  let desired_ips := desiredIpsFor interface_ips record
  if desired_ips = [] then
    []
  else
    match syncRes record.hostname desired_ips with
    | Except.error _ =>
      [Event.syncCall record.hostname desired_ips, Event.syncFailLog record.hostname]
    | Except.ok changed =>
      Event.syncCall record.hostname desired_ips ::
        ((if changed && !dry_run then [Event.verifyCall record.hostname zone desired_ips]
          else []) ++
         (if changed && k8sEnabled && (record.hostname == triggerHostname) then
            Event.annotCall desired_ips ::
              (match annotRes desired_ips with
               | Except.error _ => [Event.annotFailLog record.hostname]
               | Except.ok _ => [])
          else []))

/-- The record loop of run_update, in configuration order. -/
def processRecords (zone : String) (interface_ips : List (String × String))
    (syncRes : String → List String → Except Unit Bool)
    (annotRes : List String → Except Unit Bool)
    (k8sEnabled : Bool) (triggerHostname : String) (dry_run : Bool) :
    List RecordSpec → List Event
  | [] => []
  | record :: rest =>
    processRecord zone interface_ips syncRes annotRes k8sEnabled triggerHostname dry_run
        record ++
      processRecords zone interface_ips syncRes annotRes k8sEnabled triggerHostname dry_run
        rest

/-- main.run_update: a failed interface fetch is logged and aborts the cycle;
an empty fetched mapping is logged and aborts the cycle; otherwise every
configured record is processed in order. -/
def run_update (fetchRes : Except Unit (List (String × String)))
    (records : List RecordSpec) (zone : String)
    (syncRes : String → List String → Except Unit Bool)
    (annotRes : List String → Except Unit Bool)
    (k8sEnabled : Bool) (triggerHostname : String) (dry_run : Bool) : List Event :=
  match fetchRes with
  | Except.error _ => [Event.fetchFailLog]
  | Except.ok interface_ips =>
    if interface_ips = [] then
      [Event.noIPsWarnLog]
    else
      processRecords zone interface_ips syncRes annotRes k8sEnabled triggerHostname dry_run
        records

/-! ## Concrete instances used by witnesses and counterexamples -/

/-- A system resolver that resolves every nameserver hostname. -/
def nsResOk : String → Option (List String) := fun _ => some [ipNS]

/-- An authoritative query that answers NXDOMAIN for every name. -/
def queryNx : String → DNSAnswer := fun _ => DNSAnswer.nxdomain

/-- Interface object whose first ipv4 entry has no ipaddr key, second entry
has one, and which also carries a direct ipaddr field. -/
def cexIface : IfaceInfo := ⟨some [⟨none⟩, ⟨some ipAlt⟩], some ipDirect⟩

/-- Interface object with a single ipv4 entry carrying an address. -/
def okIface : IfaceInfo := ⟨some [⟨some ipHome⟩], none⟩

/-- Router response containing exactly the igb0 interface. -/
def dataOk : String → Option IfaceInfo :=
  fun s => if s = igbName then some okIface else none

/-- A sync that raises on every call. -/
def syncFailAll : String → List String → Except Unit Bool := fun _ _ => Except.error ()

/-- An annotation updater that succeeds. -/
def annotOk : List String → Except Unit Bool := fun _ => Except.ok true

def recHome : RecordSpec := ⟨hostHome, [wanName]⟩

def recOffice : RecordSpec := ⟨hostOffice, [wanName]⟩

/-! ## Claims about sync_a_records -/

/-- Claim C1: for every hostname and desired IP set, if the current RRSet
values (empty when no RRSet exists) are set-equal to the desired IPs, then
sync_a_records returns false and issues zero mutating calls. -/
theorem sync_noop_when_equal (ttl : Nat) (hostname : String)
    (rrset : Option BoundZoneRRSet) (desired_ips : List String) (dry_run : Bool)
    (h : currentIps rrset = desired_ips.toFinset) :
    sync_a_records ttl hostname rrset desired_ips dry_run = (false, []) := by
  simp [sync_a_records, h]

/-- Witness for C1: an RRSet holding 1.2.3.4 synced to the same single IP. -/
theorem sync_noop_when_equal_witness :
    sync_a_records 300 hostHome (some ⟨[⟨ipHome⟩]⟩) [ipHome] false = (false, []) :=
  sync_noop_when_equal 300 hostHome (some ⟨[⟨ipHome⟩]⟩) [ipHome] false (by decide)

/-- Claim C2: for every non-equal desired IP set, a non-dry-run
sync_a_records returns true and issues exactly one mutating call: delete iff
the desired set is empty and an RRSet existed, create iff non-empty and no
RRSet existed, replace iff non-empty and an RRSet existed. -/
theorem sync_one_mutation_when_different (ttl : Nat) (hostname : String)
    (rrset : Option BoundZoneRRSet) (desired_ips : List String)
    (h : currentIps rrset ≠ desired_ips.toFinset) :
    (sync_a_records ttl hostname rrset desired_ips false).1 = true ∧
    (sync_a_records ttl hostname rrset desired_ips false).2.length = 1 ∧
    ((sync_a_records ttl hostname rrset desired_ips false).2.any MutCall.isDelete = true ↔
      desired_ips.toFinset = ∅ ∧ rrset.isSome = true) ∧
    ((sync_a_records ttl hostname rrset desired_ips false).2.any MutCall.isCreate = true ↔
      desired_ips.toFinset ≠ ∅ ∧ rrset = none) ∧
    ((sync_a_records ttl hostname rrset desired_ips false).2.any MutCall.isReplace = true ↔
      desired_ips.toFinset ≠ ∅ ∧ rrset.isSome = true) := by
  rcases rrset with _ | r
  · rcases desired_ips with _ | ⟨ip, rest⟩
    · exact absurd rfl h
    · rw [List.toFinset_cons] at h
      simp [sync_a_records, h, MutCall.isCreate, MutCall.isDelete, MutCall.isReplace,
        Finset.insert_ne_empty]
  · rcases desired_ips with _ | ⟨ip, rest⟩
    · simp only [List.toFinset_nil] at h
      simp [sync_a_records, h, MutCall.isCreate, MutCall.isDelete, MutCall.isReplace]
    · rw [List.toFinset_cons] at h
      simp [sync_a_records, h, MutCall.isCreate, MutCall.isDelete, MutCall.isReplace,
        Finset.insert_ne_empty]

/-- Witness for C2: creating a record where none existed reports a change. -/
theorem sync_one_mutation_when_different_witness :
    (sync_a_records 300 hostHome none [ipHome] false).1 = true :=
  (sync_one_mutation_when_different 300 hostHome none [ipHome] (by decide)).1

/-- Claim C3: sync_a_records with dry_run returns the same boolean as the
non-dry-run call on the same provider state, while issuing zero mutating
calls, leaving the provider state unchanged. -/
theorem sync_dry_run_refines (ttl : Nat) (hostname : String)
    (rrset : Option BoundZoneRRSet) (desired_ips : List String) :
    (sync_a_records ttl hostname rrset desired_ips true).1 =
      (sync_a_records ttl hostname rrset desired_ips false).1 ∧
    (sync_a_records ttl hostname rrset desired_ips true).2 = [] := by
  by_cases h : currentIps rrset = desired_ips.toFinset
  · simp [sync_a_records, h]
  · rcases rrset with _ | r <;> rcases desired_ips with _ | ⟨ip, rest⟩
    · exact absurd rfl h
    · rw [List.toFinset_cons] at h
      simp [sync_a_records, h]
    · simp only [List.toFinset_nil] at h
      simp [sync_a_records, h]
    · rw [List.toFinset_cons] at h
      simp [sync_a_records, h]

/-! ## Claims about health_check and the retry wrapper -/

/-- Counterexample to C4: with a warm zone cache, health_check returns true
and makes zero provider calls even though the zone does not currently resolve
at the provider (a fresh _get_zone lookup would fail with a 500). -/
theorem health_check_cached_counterexample :
    health_check (some ⟨1⟩) (GetAllOutcome.apiError 500) = (true, 0) ∧
    (get_zone none (GetAllOutcome.apiError 500)).1.1 =
      Except.error (ZoneError.api 500) :=
  ⟨rfl, rfl⟩

/-- Claim C4 (amended): health_check returns true iff the zone is cached or
the provider's zone lookup currently succeeds with a non-empty zone list; it
never raises (it is a total boolean function of the outcome, every _get_zone
failure converted to false) and never retries (at most one get_all call). -/
theorem health_check_fixed (cache : Option BoundZone) (outcome : GetAllOutcome) :
    ((health_check cache outcome).1 = true ↔
      cache.isSome = true ∨ ∃ z zs, outcome = GetAllOutcome.zones (z :: zs)) ∧
    (health_check cache outcome).2 ≤ 1 := by
  rcases cache with _ | z
  · rcases outcome with c | zs
    · constructor
      · constructor
        · intro hc
          simp [health_check, get_zone] at hc
        · rintro (hs | ⟨z, zs, hz⟩)
          · simp at hs
          · exact absurd hz (by simp)
      · simp [health_check, get_zone]
    · rcases zs with _ | ⟨z, rest⟩
      · constructor
        · constructor
          · intro hc
            simp [health_check, get_zone] at hc
          · rintro (hs | ⟨z, zs, hz⟩)
            · simp at hs
            · simp at hz
        · simp [health_check, get_zone]
      · constructor
        · constructor
          · intro _
            exact Or.inr ⟨z, rest, rfl⟩
          · intro _
            simp [health_check, get_zone]
        · simp [health_check, get_zone]
  · constructor
    · constructor
      · intro _
        exact Or.inl rfl
      · intro _
        simp [health_check, get_zone]
    · simp [health_check, get_zone]

/-- Claim C5: with maxRetries = 3, a retryable failure on every attempt makes
the wrapped operation run exactly 4 times and raises the final failure; a
first failure judged non-retryable makes it run exactly once and raises it
immediately. -/
theorem retry_invocation_counts {E T : Type} (op : Nat → Except E T) (sr : E → Bool) :
    (∀ err : Nat → E,
      (∀ i, i ≤ 3 → op i = Except.error (err i) ∧ sr (err i) = true) →
      retry_with_backoff 3 op sr = (Except.error (err 3), 4)) ∧
    (∀ e, op 0 = Except.error e → sr e = false →
      retry_with_backoff 3 op sr = (Except.error e, 1)) := by
  constructor
  · intro err hall
    have h0 := hall 0 (by norm_num)
    have h1 := hall 1 (by norm_num)
    have h2 := hall 2 (by norm_num)
    have h3 := hall 3 (by norm_num)
    simp [retry_with_backoff, retryGo, h0.1, h0.2, h1.1, h1.2, h2.1, h2.2, h3.1, h3.2]
  · intro e he hsr
    simp [retry_with_backoff, retryGo, he, hsr]

/-- Witness for C5: every attempt fails retryably with its index as the error
(4 invocations, error 3 raised); a non-retryable failure raises at once. -/
theorem retry_invocation_counts_witness :
    retry_with_backoff 3 (fun i => (Except.error i : Except Nat Nat)) (fun _ => true) =
      (Except.error 3, 4) ∧
    retry_with_backoff 3 (fun _ => (Except.error 7 : Except Nat Nat)) (fun _ => false) =
      (Except.error 7, 1) :=
  ⟨(retry_invocation_counts (fun i => (Except.error i : Except Nat Nat))
      (fun _ => true)).1 (fun i => i) (fun _ _ => ⟨rfl, rfl⟩),
   (retry_invocation_counts (fun _ => (Except.error 7 : Except Nat Nat))
      (fun _ => false)).2 7 rfl rfl⟩

/-! ## Claims about verify_a_records -/

/-- Claim C6: given the nameservers resolved, an NXDOMAIN or no-A-records
answer verifies successfully iff the expected set is empty; a resolved set
different from the expected set verifies false; and when no authoritative
nameserver hostname resolves to any IP the result is false. -/
theorem verify_outcomes (res : String → Option (List String))
    (query : String → DNSAnswer) (hostname zone : String)
    (expected_ips : Finset String) :
    (resolve_nameserver_ips res ≠ [] →
      (query (fqdnOf hostname zone) = DNSAnswer.nxdomain ∨
        query (fqdnOf hostname zone) = DNSAnswer.noAnswer) →
      (verify_a_records res query hostname zone expected_ips = true ↔
        expected_ips = ∅)) ∧
    (∀ ips, query (fqdnOf hostname zone) = DNSAnswer.answer ips →
      ips.toFinset ≠ expected_ips →
      verify_a_records res query hostname zone expected_ips = false) ∧
    (resolve_nameserver_ips res = [] →
      verify_a_records res query hostname zone expected_ips = false) := by
  refine ⟨?_, ?_, ?_⟩
  · intro hns hq
    rcases hq with hq | hq <;>
      · rw [verify_a_records]
        rw [if_neg hns, hq]
        by_cases he : expected_ips = ∅
        · simp [he]
        · simp [he]
  · intro ips hq hne
    rw [verify_a_records]
    by_cases hns : resolve_nameserver_ips res = []
    · rw [if_pos hns]
    · rw [if_neg hns, hq]
      simp [hne]
  · intro hns
    rw [verify_a_records]
    rw [if_pos hns]

/-- Witness for C6: with resolvable nameservers, an NXDOMAIN answer and an
empty expected set, verification passes. -/
theorem verify_outcomes_witness :
    verify_a_records nsResOk queryNx hostHome zoneExample ∅ = true :=
  ((verify_outcomes nsResOk queryNx hostHome zoneExample ∅).1
    (by decide) (Or.inl rfl)).mpr rfl

/-! ## Claims about get_interface_ips -/

/-- Shared helper: scanning for the first entry that carries an ipaddr key
and taking its value is the first address among the entries. -/
theorem find_key_bind_eq_findSome (l : List AddrInfo) :
    (l.find? (fun a => a.ipaddr.isSome)).bind AddrInfo.ipaddr =
      l.findSome? AddrInfo.ipaddr := by
  induction l with
  | nil => rfl
  | cons a rest ih =>
    cases ha : a.ipaddr with
    | none =>
      have hp : (fun a => a.ipaddr.isSome) a = false := by simp [ha]
      simp [List.find?_cons, List.findSome?_cons, hp, ha, ih]
    | some v =>
      have hp : (fun a => a.ipaddr.isSome) a = true := by simp [ha]
      simp [List.find?_cons, List.findSome?_cons, hp, ha]

/-- Counterexample to C7: response whose ipv4 list has a first entry without
an address and a second entry with one, plus a direct address field. The code
extracts the second entry's address, which is neither the first entry of the
address list (that entry yields no value) nor the direct address field, and
the logical name is not omitted. -/
theorem extract_first_entry_counterexample :
    extract_ipv4 cexIface = some ipAlt ∧
    (cexIface.ipv4.getD []).head?.bind AddrInfo.ipaddr = none ∧
    cexIface.ipaddr = some ipDirect ∧
    ipAlt ≠ ipDirect := by
  refine ⟨rfl, rfl, rfl, ?_⟩
  decide

/-- Claim C7 (amended): for a configured logical name whose interface is in
the response, the extracted address is the value of the first address-list
entry that carries an address field, falling back to the direct address field
when no list entry carries one; the logical name maps to that value in the
result when it is non-empty, and is omitted with a warning (not an error)
when the value is empty or neither source yields one. -/
theorem extract_policy_fixed (logical opn : String)
    (data : String → Option IfaceInfo) (info : IfaceInfo)
    (h : data opn = some info) :
    (extract_ipv4 info =
      ((info.ipv4.getD []).findSome? AddrInfo.ipaddr).or info.ipaddr) ∧
    (∀ v, extract_ipv4 info = some v → v ≠ emptyStr →
      get_interface_ips [(logical, opn)] data = ([(logical, v)], [])) ∧
    ((extract_ipv4 info = none ∨ extract_ipv4 info = some emptyStr) →
      get_interface_ips [(logical, opn)] data =
        ([], [IfWarning.noIPv4 logical])) := by
  refine ⟨?_, ?_, ?_⟩
  · rw [extract_ipv4]
    rcases hl : info.ipv4 with _ | entries
    · simp
    · simp only [Option.getD_some]
      rw [find_key_bind_eq_findSome]
      rcases hf : entries.findSome? AddrInfo.ipaddr with _ | v
      · simp [Option.or]
      · simp [Option.or]
  · intro v hv hne
    have hne2 : ¬ (v = "") := hne
    simp [get_interface_ips, h, hv, hne2]
  · intro hcase
    rcases hcase with hv | hv
    · simp [get_interface_ips, h, hv]
    · simp [get_interface_ips, h, hv, emptyStr]

/-- Witness for C7 (amended): a single-entry list with an address yields that
address for the logical name. -/
theorem extract_policy_fixed_witness :
    get_interface_ips [(wanName, igbName)] dataOk = ([(wanName, ipHome)], []) :=
  (extract_policy_fixed wanName igbName dataOk okIface (by decide)).2.1 ipHome
    (by decide) (by decide)

/-! ## Claims about the rate limiter and run_update -/

/-- Shared helper: once last_request equals the current clock, every further
immediate wait() sleeps exactly the configured interval. -/
theorem waitSeq_steady (I : ℚ) (hI : 0 < I) (n : Nat) :
    ∀ now : ℚ, waitSeq ⟨I, now⟩ now n = List.replicate n I := by
  induction n with
  | zero => intro now; rfl
  | succ n ih =>
    intro now
    have hlt : now - now < I := by simpa using hI
    have hw : RateLimiter.wait ⟨I, now⟩ now = (some I, ⟨I, now + I⟩) := by
      rw [RateLimiter.wait]
      simp [hlt, hI]
    simp only [waitSeq, hw]
    rw [ih (now + I)]
    simp [List.replicate_succ]

/-- Claim C9: N sequential wait() calls on a fresh limiter with no time
passing between the calls perform exactly N-1 sleeps, each of the configured
interval 60/requestsPerMinute (the first call never sleeps); and a call whose
clock has advanced by at least the interval since the last request performs
no sleep. -/
theorem rate_limiter_sleep_pattern (rpm t : ℚ) (N : Nat) (hrpm : 0 < rpm)
    (hN : 1 ≤ N) :
    waitSeq (RateLimiter.mkAt rpm t) t N = List.replicate (N - 1) (60 / rpm) ∧
    (∀ (rl : RateLimiter) (now : ℚ), rl.last_request + rl.min_interval ≤ now →
      (rl.wait now).1 = none) := by
  constructor
  · have hI : 0 < 60 / rpm := by positivity
    obtain ⟨m, rfl⟩ := Nat.exists_eq_succ_of_ne_zero (Nat.one_le_iff_ne_zero.mp hN)
    have hw : (RateLimiter.mkAt rpm t).wait t = (none, ⟨60 / rpm, t⟩) := by
      rw [RateLimiter.mkAt, RateLimiter.wait]
      have hnl : ¬ (t - (t - 60 / rpm) < 60 / rpm) := by
        rw [sub_sub_cancel]
        exact lt_irrefl _
      simp [hnl]
    simp only [waitSeq, hw]
    rw [waitSeq_steady (60 / rpm) hI m t]
    simp
  · intro rl now hle
    rw [RateLimiter.wait]
    have hnl : ¬ (now - rl.last_request < rl.min_interval) := by
      simp only [not_lt]
      linarith
    simp [hnl]

/-- Witness for C9: three calls at 60 requests per minute sleep twice, one
second each. -/
theorem rate_limiter_sleep_pattern_witness :
    waitSeq (RateLimiter.mkAt 60 0) 0 3 = List.replicate (3 - 1) (60 / 60) :=
  (rate_limiter_sleep_pattern 60 0 3 (by norm_num) (by norm_num)).1

/-- Claim C8: a failed interface fetch aborts the whole cycle before any
record is processed (the only event is the error log, so no provider call is
made for any record); a failure inside one record's processing is caught at
the per-record boundary, so a cycle's events decompose record by record and
processing always continues with all subsequent records. -/
theorem run_update_isolation (records : List RecordSpec) (zone : String)
    (syncRes : String → List String → Except Unit Bool)
    (annotRes : List String → Except Unit Bool)
    (k8sEnabled : Bool) (triggerHostname : String) (dry_run : Bool) :
    run_update (Except.error ()) records zone syncRes annotRes k8sEnabled
        triggerHostname dry_run = [Event.fetchFailLog] ∧
    (∀ (interface_ips : List (String × String)) (record : RecordSpec)
        (rest : List RecordSpec), interface_ips ≠ [] →
      run_update (Except.ok interface_ips) (record :: rest) zone syncRes annotRes
          k8sEnabled triggerHostname dry_run =
        processRecord zone interface_ips syncRes annotRes k8sEnabled
            triggerHostname dry_run record ++
          run_update (Except.ok interface_ips) rest zone syncRes annotRes
            k8sEnabled triggerHostname dry_run) := by
  refine ⟨rfl, ?_⟩
  intro interface_ips record rest hne
  simp only [run_update]
  rw [if_neg hne, if_neg hne]
  rfl

/-- Witness for C8: with a sync that raises on every call, the first record's
failure is contained and the remaining record is still processed. -/
theorem run_update_isolation_witness :
    run_update (Except.ok [(wanName, ipHome)]) [recHome, recOffice] zoneExample
        syncFailAll annotOk false emptyStr false =
      processRecord zoneExample [(wanName, ipHome)] syncFailAll annotOk false
          emptyStr false recHome ++
        run_update (Except.ok [(wanName, ipHome)]) [recOffice] zoneExample
          syncFailAll annotOk false emptyStr false :=
  (run_update_isolation [recHome, recOffice] zoneExample syncFailAll annotOk
      false emptyStr false).2 [(wanName, ipHome)] recHome [recOffice] (by decide)

/-- Claim C10: when the interface fetch succeeds with an empty mapping,
run_update logs a warning and returns before iterating over the records: no
sync, verification, or annotation event occurs for any configured record, so
provider DNS state is untouched. -/
theorem run_update_empty_ips_frame (records : List RecordSpec) (zone : String)
    (syncRes : String → List String → Except Unit Bool)
    (annotRes : List String → Except Unit Bool)
    (k8sEnabled : Bool) (triggerHostname : String) (dry_run : Bool) :
    run_update (Except.ok []) records zone syncRes annotRes k8sEnabled
      triggerHostname dry_run = [Event.noIPsWarnLog] := rfl
